import Mathlib

/-!
Verification model of the lead-generation subsystem (lead-generation.js,
lead-endpoints.js and the lead-generation SQL schema).

Machinery is embedded shallowly: database tables become lists of records,
`NOW()` becomes an explicit `now : Nat` parameter (milliseconds), outbound
SMS and Stripe checkout-session creations are collected in effect lists,
and the JavaScript regular-expression replacements of `stripPIIFromNotes`
are executed by a small leftmost-greedy pattern matcher restricted to the
constructs those five patterns actually use (quantified character classes,
literals, alternation of literals, word boundaries).
-/

namespace LeadGen

/-! ## Pattern matcher for the PII regexes

JS `String.replace(regex, repl)` with the `g` flag finds successive
non-overlapping leftmost matches in the input string and substitutes each.
All five patterns in `stripPIIFromNotes` are built from quantified
single-character classes, literals, alternations of literals and `\b`
assertions, so leftmost-greedy matching with backtracking over the run
length of each class is exactly the JS semantics for them. -/

/-- One item of a pattern: a greedily quantified character class
(`min`/`max` repetitions, `max = none` meaning unbounded), a literal
(case-insensitive when `ci`), an alternation of literals tried in order,
or a word-boundary assertion. -/
inductive RItem where
  | cls (p : Char → Bool) (mn : Nat) (mx : Option Nat)
  | lit (s : List Char) (ci : Bool)
  | alt (as : List (List Char)) (ci : Bool)
  | wb

/-- JS `\w`: ASCII letters, digits and underscore. -/
def isWordChar (c : Char) : Bool :=
  c.isAlpha || c.isDigit || c == '_'

/-- JS `\b`: one side of the position is a word character, the other
(or the string edge) is not. -/
def atBoundary (prev next : Option Char) : Bool :=
  let w : Option Char → Bool := fun o => match o with
    | some c => isWordChar c
    | none => false
  w prev != w next

/-- Case-insensitive character comparison used by the `i`-flagged patterns. -/
def ciEq (ci : Bool) (a b : Char) : Bool :=
  if ci then a.toLower == b.toLower else a == b

/-- Does the literal `l` start the text `s` (under flag `ci`)? -/
def litHere (ci : Bool) : List Char → List Char → Bool
  | [], _ => true
  | _ :: _, [] => false
  | a :: l, c :: s => ciEq ci a c && litHere ci l s

/-- Length of the maximal run of class characters at the front of `s`,
capped at `mx` when a cap is given. -/
def runLen (p : Char → Bool) (mx : Option Nat) : List Char → Nat
  | [] => 0
  | c :: s =>
    if p c then
      match mx with
      | some 0 => 0
      | some (m + 1) => runLen p (some m) s + 1
      | none => runLen p none s + 1
    else 0

/-- Character at index `i` of `s`, as an `Option`. -/
def charAt (s : List Char) (i : Nat) : Option Char :=
  (s.drop i).head?

/-- `matchItems fuel items prev s` tries to match `items` at the front of
`s`, where `prev` is the character just before the current position;
returns the number of characters consumed.  Quantified classes are greedy
with backtracking (runs tried from longest to shortest), alternatives are
tried in order.  The fuel only bounds the recursion over `items`; every
step consumes one item, so any `fuel > items.length` is exact. -/
def matchItems : Nat → List RItem → Option Char → List Char → Option Nat
  | 0, _, _, _ => none
  | _ + 1, [], _, _ => some 0
  | fuel + 1, .wb :: rest, prev, s =>
    if atBoundary prev s.head? then matchItems fuel rest prev s else none
  | fuel + 1, .lit l ci :: rest, prev, s =>
    if litHere ci l s then
      let prev' := if l.isEmpty then prev else charAt s (l.length - 1)
      (matchItems fuel rest prev' (s.drop l.length)).map (· + l.length)
    else none
  | fuel + 1, .alt alts ci :: rest, prev, s =>
    alts.findSome? fun a =>
      if litHere ci a s then
        let prev' := if a.isEmpty then prev else charAt s (a.length - 1)
        (matchItems fuel rest prev' (s.drop a.length)).map (· + a.length)
      else none
  | fuel + 1, .cls p mn mx :: rest, prev, s =>
    let k := runLen p mx s
    ((List.range (k + 1)).reverse).findSome? fun j =>
      if mn ≤ j then
        let prev' := if j == 0 then prev else charAt s (j - 1)
        (matchItems fuel rest prev' (s.drop j)).map (· + j)
      else none

/-- Try to match the pattern at the current position. -/
def matchHere (pat : List RItem) (prev : Option Char) (s : List Char) : Option Nat :=
  matchItems (pat.length + 1) pat prev s

/-- One global-replace pass: scan left to right, replace each leftmost
match by `repl`, resume after the replaced text (matching always against
the input of this pass, as JS does).  Structural recursion on a fuel
bounding the number of scan steps; every step consumes at least one
character, so the fuel `s.length` used by `runPass` is exact and the
zero-fuel arm is unreachable from it. -/
def replacePassAux (pat : List RItem) (repl : List Char) :
    Nat → Option Char → List Char → List Char
  | _, _, [] => []
  | 0, _, s => s
  | fuel + 1, prev, c :: s =>
    match matchHere pat prev (c :: s) with
    | some n =>
      if n = 0 then
        c :: replacePassAux pat repl fuel (some c) s
      else
        let prev' := charAt (c :: s) (n - 1)
        repl ++ replacePassAux pat repl fuel prev' (s.drop (n - 1))
    | none => c :: replacePassAux pat repl fuel (some c) s

/-- Run a pass over a whole string. -/
def runPass (pat : List RItem) (repl : String) (s : List Char) : List Char :=
  replacePassAux pat repl.toList s.length none s

/-- JS `String.prototype.trim()` on the character list: strip whitespace
from both ends. -/
def trimBoth (l : List Char) : List Char :=
  ((l.dropWhile Char.isWhitespace).reverse.dropWhile Char.isWhitespace).reverse

/-- JS `trim()` as a string function. -/
def jsTrim (s : String) : String :=
  String.mk (trimBoth s.toList)

/-- JS `toUpperCase()` (ASCII behaviour, matching the inputs handled
here). -/
def jsToUpper (s : String) : String :=
  String.mk (s.toList.map Char.toUpper)

def isDigitChar (c : Char) : Bool := c.isDigit

def isSepChar (c : Char) : Bool := c == '-' || c == '.'

def isSpaceChar (c : Char) : Bool := c.isWhitespace

/-- Local part of the email pattern: `[A-Za-z0-9._%+-]`. -/
def isEmailLocalChar (c : Char) : Bool :=
  c.isAlpha || c.isDigit || c == '.' || c == '_' || c == '%' || c == '+' || c == '-'

/-- Domain part of the email pattern: `[A-Za-z0-9.-]`. -/
def isEmailDomainChar (c : Char) : Bool :=
  c.isAlpha || c.isDigit || c == '.' || c == '-'

/-- Final label of the email pattern: `[A-Z|a-z]` (the source class
literally contains `|`). -/
def isTldChar (c : Char) : Bool := c.isAlpha || c == '|'

/-- `[A-Za-z\s]`. -/
def isAlphaSpaceChar (c : Char) : Bool := c.isAlpha || c.isWhitespace

/-- Source pattern 1: `\b\d{3}[-.]?\d{3}[-.]?\d{4}\b`. -/
def phonePat1 : List RItem :=
  [.wb, .cls isDigitChar 3 (some 3), .cls isSepChar 0 (some 1),
   .cls isDigitChar 3 (some 3), .cls isSepChar 0 (some 1),
   .cls isDigitChar 4 (some 4), .wb]

/-- Source pattern 2: `\b\(\d{3}\)\s?\d{3}[-.]?\d{4}\b`. -/
def phonePat2 : List RItem :=
  [.wb, .lit ['('] false, .cls isDigitChar 3 (some 3), .lit [')'] false,
   .cls isSpaceChar 0 (some 1), .cls isDigitChar 3 (some 3),
   .cls isSepChar 0 (some 1), .cls isDigitChar 4 (some 4), .wb]

/-- Source pattern 3: `\b[A-Za-z0-9._%+-]+@[A-Za-z0-9.-]+\.[A-Z|a-z]{2,}\b`. -/
def emailPat : List RItem :=
  [.wb, .cls isEmailLocalChar 1 none, .lit ['@'] false,
   .cls isEmailDomainChar 1 none, .lit ['.'] false,
   .cls isTldChar 2 none, .wb]

/-- Source pattern 4 (flag `gi`): `\bmy name is\s+[A-Za-z\s]+`. -/
def namePat1 : List RItem :=
  [.wb, .lit "my name is".toList true, .cls isSpaceChar 1 none,
   .cls isAlphaSpaceChar 1 none]

/-- Source pattern 5 (flag `gi`): `\bi'm\s+[A-Za-z\s]+`. -/
def namePat2 : List RItem :=
  [.wb, .lit ['i', '\x27', 'm'] true, .cls isSpaceChar 1 none,
   .cls isAlphaSpaceChar 1 none]

/-- Source pattern 6 (flag `gi`):
`\b\d+\s+[A-Za-z\s]+(street|st|avenue|ave|road|rd|drive|dr|lane|ln|blvd|boulevard)\b`. -/
def addressPat : List RItem :=
  [.wb, .cls isDigitChar 1 none, .cls isSpaceChar 1 none,
   .cls isAlphaSpaceChar 1 none,
   .alt ["street".toList, "st".toList, "avenue".toList, "ave".toList,
         "road".toList, "rd".toList, "drive".toList, "dr".toList,
         "lane".toList, "ln".toList, "blvd".toList, "boulevard".toList] true,
   .wb]

/-- `stripPIIFromNotes` from lead-generation.js: the five replacement
passes in source order, then `substring(0, 160)` and `trim()`.  A falsy
argument (absent or empty notes) yields the empty string. -/
def stripPIIFromNotes (notes : Option String) : String :=
  match notes with
  | none => ""
  | some s =>
    if s.isEmpty then ""
    else
      let l := s.toList
      let l := runPass phonePat1 "[PHONE]" l
      let l := runPass phonePat2 "[PHONE]" l
      let l := runPass emailPat "[EMAIL]" l
      let l := runPass namePat1 "my name is [NAME]" l
      let l := runPass namePat2 "I\x27m [NAME]" l
      let l := runPass addressPat "[ADDRESS]" l
      String.mk (trimBoth (l.take 160))

/-- Substring test used to state the redaction claims. -/
def hasSubList (needle : List Char) : List Char → Bool
  | [] => needle.isEmpty
  | c :: t => needle.isPrefixOf (c :: t) || hasSubList needle t

/-- `strContains hay needle` holds when `needle` occurs in `hay`. -/
def strContains (hay needle : String) : Bool :=
  hasSubList needle.toList hay.toList

/-! ## Data model

Rows of the lead-generation schema (lead-generation.sql).  Timestamps are
`Nat` milliseconds; nullable columns and possibly-absent JS object fields
are `Option`. -/

/-- A row of `leads`. -/
structure Lead where
  lead_id : String
  city : String
  service_type : String
  preferred_time_window : Option String
  budget_range : Option String
  notes_snippet : String
  client_name : String
  client_phone : String
  client_email : Option String
  exact_address : Option String
  original_notes : Option String
  expires_at : Nat
  deriving Repr, DecidableEq

/-- A row of `lead_interactions`.  `UNIQUE(lead_id, provider_id)` is a
schema constraint; the model keeps a list and, as the SQL does, updates
every row matching the key. -/
structure Interaction where
  id : Nat
  lead_id : String
  provider_id : String
  status : String
  last_sent_at : Option Nat
  ttl_expires_at : Option Nat
  unlocked_at : Option Nat
  payment_link_url : Option String
  checkout_session_id : Option String
  payment_intent_id : Option String
  created_at : Nat
  updated_at : Nat
  deriving Repr, DecidableEq

/-- A row of `providers` (the fields the lead subsystem reads). -/
structure ProviderRow where
  id : String
  phone : String
  timezone : Option String
  deriving Repr, DecidableEq

/-- The provider shape built by `getMatchingProviders` in
lead-endpoints.js and passed to `sendLeadTeaser`
(`provider_id` is the `providers.id`). -/
structure TeaserTarget where
  provider_id : String
  phone : String
  timezone : Option String
  deriving Repr, DecidableEq

/-- A row of `lead_config`. -/
structure LeadConfigRow where
  id : Nat
  price_cents : Nat
  currency : String
  ttl_hours : Nat
  quiet_start_hour : Nat
  quiet_start_minute : Nat
  quiet_end_hour : Nat
  quiet_end_minute : Nat
  deriving Repr, DecidableEq

/-- The object `getLeadConfig` evaluates to: either a full `SELECT *` row
or the literal fallback `{ price_cents: 2000, currency: 'usd',
ttl_hours: 24 }`, which carries no quiet-hours fields at all — absence is
`none`. -/
structure LeadConfigView where
  price_cents : Nat
  currency : String
  ttl_hours : Nat
  quiet_start_hour : Option Nat
  quiet_start_minute : Option Nat
  quiet_end_hour : Option Nat
  quiet_end_minute : Option Nat
  deriving Repr, DecidableEq

/-- The database state the lead subsystem touches. -/
structure DB where
  leads : List Lead
  lead_interactions : List Interaction
  provider_optouts : List String
  lead_config : List LeadConfigRow
  providers : List ProviderRow
  next_interaction_id : Nat
  deriving Repr, DecidableEq

/-- An outbound SMS effect. -/
structure Sms where
  phone : String
  text : String
  deriving Repr, DecidableEq

/-- The parameters of a Stripe checkout-session creation
(`stripe.checkout.sessions.create` in `createPaymentLink`): recorded so a
claim can state that no new session was minted. -/
structure CheckoutCreate where
  currency : String
  unit_amount : Nat
  lead_id : String
  provider_id : String
  expires_at : Nat
  deriving Repr, DecidableEq

/-- What Stripe would answer for the next session creation; passed in as
an explicit parameter since the session id and URL are minted remotely. -/
structure PaymentLink where
  url : String
  session_id : String
  deriving Repr, DecidableEq

/-- A `checkout.session.completed` event object as read by
`handleLeadPayment`: the two metadata entries and `payment_intent`. -/
structure SessionEvt where
  metadata_lead_id : Option String
  metadata_provider_id : Option String
  payment_intent : Option String
  deriving Repr, DecidableEq

/-! ## JS helpers -/

/-- JS truthiness of a possibly-absent string (`undefined`, `null` and
`''` are falsy). -/
def jsTruthy (o : Option String) : Bool :=
  match o with
  | some s => !s.isEmpty
  | none => false

/-- JS `a || b` for a possibly-absent string `a`. -/
def jsOr (o : Option String) (d : String) : String :=
  match o with
  | some s => if s.isEmpty then d else s
  | none => d

/-! ## Store utilities (lead-generation.js) -/

/-- The `WHERE lead_id = $1 AND provider_id = $2` filter. -/
def keyMatch (leadId providerId : String) (r : Interaction) : Bool :=
  r.lead_id == leadId && r.provider_id == providerId

/-- SQL `UPDATE ... WHERE p`: rewrite every matching row. -/
def updateWhere {α : Type} (p : α → Bool) (f : α → α) (l : List α) : List α :=
  l.map fun a => if p a then f a else a

/-- `getLeadInteraction`: `SELECT * FROM lead_interactions WHERE lead_id
AND provider_id`, first row. -/
def getLeadInteraction (db : DB) (leadId providerId : String) : Option Interaction :=
  db.lead_interactions.find? (keyMatch leadId providerId)

/-- `updateInteractionStatus`: unconditional status overwrite of every
row with the key, bumping `updated_at`. -/
def updateInteractionStatus (db : DB) (leadId providerId status : String)
    (now : Nat) : DB :=
  { db with
      lead_interactions :=
        updateWhere (keyMatch leadId providerId)
          (fun r => { r with status := status, updated_at := now })
          db.lead_interactions }

/-- `ORDER BY id DESC LIMIT 1` over `lead_config`. -/
def latestConfigRow (rows : List LeadConfigRow) : Option LeadConfigRow :=
  rows.foldl
    (fun acc r =>
      match acc with
      | none => some r
      | some b => if b.id < r.id then some r else some b)
    none

/-- `getLeadConfig`: the most recent configuration row, or the literal
fallback `{ price_cents: 2000, currency: 'usd', ttl_hours: 24 }` (which
has no quiet-hours fields). -/
def getLeadConfig (db : DB) : LeadConfigView :=
  match latestConfigRow db.lead_config with
  | some r =>
    { price_cents := r.price_cents, currency := r.currency,
      ttl_hours := r.ttl_hours,
      quiet_start_hour := some r.quiet_start_hour,
      quiet_start_minute := some r.quiet_start_minute,
      quiet_end_hour := some r.quiet_end_hour,
      quiet_end_minute := some r.quiet_end_minute }
  | none =>
    { price_cents := 2000, currency := "usd", ttl_hours := 24,
      quiet_start_hour := none, quiet_start_minute := none,
      quiet_end_hour := none, quiet_end_minute := none }

/-- `upsertLeadInteraction`: `INSERT ... ON CONFLICT (lead_id,
provider_id) DO UPDATE SET status = $3, updated_at = NOW()` — on conflict
only `status` and `updated_at` are written; `ttl_expires_at` is only set
by the insert arm.  Returns the row (`RETURNING *`) and the new state. -/
def upsertLeadInteraction (db : DB) (leadId providerId status : String)
    (now : Nat) : Interaction × DB :=
  let config := getLeadConfig db
  let ttlExpires := now + config.ttl_hours * 60 * 60 * 1000
  match getLeadInteraction db leadId providerId with
  | some row =>
    let row' := { row with status := status, updated_at := now }
    (row',
      { db with
          lead_interactions :=
            updateWhere (keyMatch leadId providerId)
              (fun r => { r with status := status, updated_at := now })
              db.lead_interactions })
  | none =>
    let row : Interaction :=
      { id := db.next_interaction_id, lead_id := leadId,
        provider_id := providerId, status := status,
        last_sent_at := none, ttl_expires_at := some ttlExpires,
        unlocked_at := none, payment_link_url := none,
        checkout_session_id := none, payment_intent_id := none,
        created_at := now, updated_at := now }
    (row,
      { db with lead_interactions := db.lead_interactions ++ [row],
                next_interaction_id := db.next_interaction_id + 1 })

/-- `isQuietHours(timezone)`: the source reads the server-local integer
hour (`new Date().getHours()`) and returns `hour >= 21.5 || hour < 8`;
the `timezone` argument is unused.  `21.5` against an integer hour is the
rational comparison `2 * hour >= 43`. -/
def isQuietHours (timezone : String) (serverHour : Nat) : Bool :=
  let _ := timezone
  decide (2 * serverHour ≥ 43) || decide (serverHour < 8)

/-! ## Message renderers -/

/-- `createTeaserMessage` (the `interactionId` parameter is unused by the
source template, which interpolates `lead.lead_id`). -/
def createTeaserMessage (lead : Lead) (interactionId : Nat) : String :=
  let _ := interactionId
  "🔔 NEW CLIENT INQUIRY\n\n📍 Location: " ++ lead.city
    ++ "\n🛠️ Service: " ++ lead.service_type
    ++ "\n⏰ Timing: " ++ jsOr lead.preferred_time_window "Flexible"
    ++ "\n💰 Budget: " ++ jsOr lead.budget_range "Not specified"
    ++ "\n📝 Notes: " ++ jsOr (some lead.notes_snippet) "No additional notes"
    ++ "\n\n💡 Want full contact details?\nReply Y for $20 access"
    ++ "\nReply N to skip\nReply STOP to opt out\n\nLead #" ++ lead.lead_id
    ++ "\nGold Touch List provides advertising access to client inquiries."
    ++ " We do not arrange or guarantee appointments."

/-- The reveal message rendered by `sendRevealedDetails`. -/
def revealMessage (lead : Lead) : String :=
  "🎉 PAYMENT CONFIRMED - CLIENT DETAILS\n\n👤 Name: " ++ lead.client_name
    ++ "\n📞 Phone: " ++ lead.client_phone
    ++ "\n📧 Email: " ++ jsOr lead.client_email "Not provided"
    ++ "\n📍 Address: " ++ jsOr lead.exact_address "See notes"
    ++ "\n\n🛠️ Service: " ++ lead.service_type
    ++ "\n⏰ Timing: " ++ jsOr lead.preferred_time_window "Flexible"
    ++ "\n💰 Budget: " ++ jsOr lead.budget_range "Not specified"
    ++ "\n\n📝 Full Notes:\n" ++ jsOr lead.original_notes "No additional notes"
    ++ "\n\nLead #" ++ lead.lead_id
    ++ "\nContact the client directly to arrange service."
    ++ "\n\nGold Touch List provides advertising access to client inquiries."
    ++ " We do not arrange or guarantee appointments."

/-- The SMS text of the resend-existing-link branch of
`handleYesResponse`. -/
def resendLinkMessage (url : String) : String :=
  "Here\x27s your payment link again: " ++ url

/-- The SMS text of the new-payment-link branch of `handleYesResponse`. -/
def paymentLinkMessage (url leadId : String) : String :=
  "💳 Pay $20 to access full client details: " ++ url
    ++ "\n\nThis link expires in 24 hours.\nLead #" ++ leadId

/-! ## Operations (lead-generation.js) -/

/-- Result of `sendLeadTeaser`: `{skipped, reason}`, `{queued, reason}`
or `{sent, interaction_id}`. -/
inductive TeaserResult where
  | skipped (reason : String)
  | queued (reason : String)
  | sent (interaction_id : Nat)
  deriving Repr, DecidableEq

/-- State, dispatched SMS and result of a teaser dispatch. -/
structure TeaserOut where
  result : TeaserResult
  db : DB
  sms : List Sms
  deriving Repr, DecidableEq

/-- `sendLeadTeaser(lead, provider)`: opt-out check, quiet-hours check,
upsert to `TEASER_SENT`, send the teaser, then stamp `last_sent_at`.
`serverHour` is the server-local `new Date().getHours()`. -/
def sendLeadTeaser (db : DB) (lead : Lead) (provider : TeaserTarget)
    (serverHour : Nat) (now : Nat) : TeaserOut :=
  if db.provider_optouts.contains provider.provider_id then
    { result := .skipped "opted_out", db := db, sms := [] }
  else if isQuietHours (jsOr provider.timezone "America/New_York") serverHour then
    { result := .queued "quiet_hours", db := db, sms := [] }
  else
    let (interaction, db1) :=
      upsertLeadInteraction db lead.lead_id provider.provider_id "TEASER_SENT" now
    let message := createTeaserMessage lead interaction.id
    let db2 : DB :=
      { db1 with
          lead_interactions :=
            updateWhere (keyMatch lead.lead_id provider.provider_id)
              (fun r => { r with last_sent_at := some now })
              db1.lead_interactions }
    { result := .sent interaction.id, db := db2,
      sms := [{ phone := provider.phone, text := message }] }

/-- Result objects of `handleProviderResponse` and its helpers. -/
inductive RespResult where
  | err (msg : String)
  | opted_out
  | resent_link
  | payment_link_sent (url : String)
  | declined
  deriving Repr, DecidableEq

/-- State, SMS and checkout-session-creation effects of a reply. -/
structure RespOut where
  result : RespResult
  db : DB
  sms : List Sms
  sessions : List CheckoutCreate
  deriving Repr, DecidableEq

/-- `handleOptOut`: `INSERT INTO provider_optouts ... ON CONFLICT DO
NOTHING`. -/
def handleOptOut (db : DB) (providerId : String) : RespOut :=
  let db' :=
    if db.provider_optouts.contains providerId then db
    else { db with provider_optouts := db.provider_optouts ++ [providerId] }
  { result := .opted_out, db := db', sms := [], sessions := [] }

/-- `handleNoResponse`: unconditional move to `EXPIRED`. -/
def handleNoResponse (db : DB) (leadId providerId : String) (now : Nat) : RespOut :=
  { result := .declined,
    db := updateInteractionStatus db leadId providerId "EXPIRED" now,
    sms := [], sessions := [] }

/-- The existing-unpaid-link query of `handleYesResponse`: key match,
status in (`PAYMENT_LINK_SENT`, `AWAITING_PAYMENT`), non-null URL. -/
def findExistingPaymentLink (db : DB) (leadId providerId : String) :
    Option Interaction :=
  db.lead_interactions.find? fun r =>
    keyMatch leadId providerId r
      && (r.status == "PAYMENT_LINK_SENT" || r.status == "AWAITING_PAYMENT")
      && r.payment_link_url.isSome

/-- `handleYesResponse`: resend the existing unpaid link (and rewrite the
status to `PAYMENT_LINK_SENT`), or mint a new checkout session via
`createPaymentLink` and store its url and session id.  `fresh` is the
url/session id Stripe would mint for a new session. -/
def handleYesResponse (db : DB) (leadId : String) (provider : ProviderRow)
    (fresh : PaymentLink) (now : Nat) : RespOut :=
  match findExistingPaymentLink db leadId provider.id with
  | some interaction =>
    let db' := updateInteractionStatus db leadId provider.id "PAYMENT_LINK_SENT" now
    { result := .resent_link, db := db',
      sms := [{ phone := provider.phone,
                text := resendLinkMessage (interaction.payment_link_url.getD "null") }],
      sessions := [] }
  | none =>
    let config := getLeadConfig db
    let create : CheckoutCreate :=
      { currency := config.currency, unit_amount := config.price_cents,
        lead_id := leadId, provider_id := provider.id,
        expires_at := now / 1000 + 24 * 60 * 60 }
    let db' : DB :=
      { db with
          lead_interactions :=
            updateWhere (keyMatch leadId provider.id)
              (fun r =>
                { r with status := "PAYMENT_LINK_SENT",
                         payment_link_url := some fresh.url,
                         checkout_session_id := some fresh.session_id,
                         updated_at := now })
              db.lead_interactions }
    { result := .payment_link_sent fresh.url, db := db',
      sms := [{ phone := provider.phone,
                text := paymentLinkMessage fresh.url leadId }],
      sessions := [create] }

/-- `handleProviderResponse(providerPhone, message, leadId)`: normalise
the reply, look the provider up by phone, handle STOP, require an
interaction, then dispatch on Y/YES/N/NO. -/
def handleProviderResponse (db : DB) (providerPhone message leadId : String)
    (fresh : PaymentLink) (now : Nat) : RespOut :=
  let response := jsToUpper (jsTrim message)
  match db.providers.find? (fun p => p.phone == providerPhone) with
  | none => { result := .err "Unknown provider", db := db, sms := [], sessions := [] }
  | some provider =>
    if response == "STOP" then
      handleOptOut db provider.id
    else
      match getLeadInteraction db leadId provider.id with
      | none =>
        { result := .err "No active lead found", db := db, sms := [], sessions := [] }
      | some _ =>
        if response == "Y" || response == "YES" then
          handleYesResponse db leadId provider fresh now
        else if response == "N" || response == "NO" then
          handleNoResponse db leadId provider.id now
        else
          { result := .err "Unknown response", db := db, sms := [], sessions := [] }

/-- State and SMS effects of the payment webhook handler. -/
structure PayOut where
  db : DB
  sms : List Sms
  deriving Repr, DecidableEq

/-- `handleLeadPayment(session)`: require metadata, unconditionally
rewrite the interaction to `PAID` (recording `unlocked_at` and
`payment_intent_id`), load lead and provider, send the reveal, set
`REVEAL_DETAILS_SENT` (inside `sendRevealedDetails`), then `DONE`.  The
handler performs no duplicate-delivery check. -/
def handleLeadPayment (db : DB) (session : SessionEvt) (now : Nat) : PayOut :=
  if !jsTruthy session.metadata_lead_id || !jsTruthy session.metadata_provider_id then
    { db := db, sms := [] }
  else
    let lead_id := jsOr session.metadata_lead_id ""
    let provider_id := jsOr session.metadata_provider_id ""
    let db1 : DB :=
      { db with
          lead_interactions :=
            updateWhere (keyMatch lead_id provider_id)
              (fun r =>
                { r with status := "PAID", unlocked_at := some now,
                         payment_intent_id := session.payment_intent,
                         updated_at := now })
              db.lead_interactions }
    match db1.leads.find? (fun l => l.lead_id == lead_id),
          db1.providers.find? (fun p => p.id == provider_id) with
    | some lead, some provider =>
      let sms : Sms := { phone := provider.phone, text := revealMessage lead }
      let db2 := updateInteractionStatus db1 lead.lead_id provider.id
        "REVEAL_DETAILS_SENT" now
      let db3 := updateInteractionStatus db2 lead_id provider_id "DONE" now
      { db := db3, sms := [sms] }
    | _, _ => { db := db1, sms := [] }

/-! ## Lead creation (createLead and the POST /leads route) -/

/-- The request body fields of `POST /api/leads`. -/
structure CreateLeadReq where
  lead_id : Option String
  city : Option String
  service_type : Option String
  preferred_time_window : Option String
  budget_range : Option String
  client_name : Option String
  client_phone : Option String
  client_email : Option String
  exact_address : Option String
  original_notes : Option String
  deriving Repr, DecidableEq

/-- The two failure modes of lead creation: the route's 400 on missing
required fields, and the `leads.lead_id` primary-key violation raised by
the `INSERT` of `createLead` for a duplicate id. -/
inductive LeadError where
  | validationError
  | conflictError
  deriving Repr, DecidableEq

/-- `createLead(leadData)`: strip PII into `notes_snippet` and `INSERT`
the row (`expires_at = NOW() + INTERVAL '7 days'`).  `leads.lead_id` is
the primary key, so a duplicate id makes the insert throw (modelled as
`conflictError`) and leaves the table untouched. -/
def createLead (db : DB) (d : CreateLeadReq) (now : Nat) :
    Except LeadError (Lead × DB) :=
  let lid := jsOr d.lead_id ""
  if db.leads.any (fun l => l.lead_id == lid) then
    .error .conflictError
  else
    let lead : Lead :=
      { lead_id := lid, city := jsOr d.city "",
        service_type := jsOr d.service_type "",
        preferred_time_window := d.preferred_time_window,
        budget_range := d.budget_range,
        notes_snippet := stripPIIFromNotes d.original_notes,
        client_name := jsOr d.client_name "",
        client_phone := jsOr d.client_phone "",
        client_email := d.client_email,
        exact_address := d.exact_address,
        original_notes := d.original_notes,
        expires_at := now + 7 * 24 * 60 * 60 * 1000 }
    .ok (lead, { db with leads := db.leads ++ [lead] })

/-- The validation guard of `router.post('/leads')` followed by
`createLead`; the teaser fan-out that runs only after a successful insert
is modelled separately by `sendLeadTeaser`.  Returns the response and the
resulting state. -/
def createLeadChecked (db : DB) (req : CreateLeadReq) (now : Nat) :
    Except LeadError Lead × DB :=
  if !jsTruthy req.lead_id || !jsTruthy req.city || !jsTruthy req.service_type
      || !jsTruthy req.client_name || !jsTruthy req.client_phone then
    (.error .validationError, db)
  else
    match createLead db req now with
    | .error e => (.error e, db)
    | .ok (lead, db') => (.ok lead, db')

/-! ## Concrete fixtures used by witnesses and counterexamples -/

/-- The notes of end-to-end scenario A. -/
def demoNotes : String := "call me at 555-0100 or email a@b.com"

def demoLead : Lead :=
  { lead_id := "L1", city := "Austin", service_type := "60 min massage",
    preferred_time_window := none, budget_range := none,
    notes_snippet := "call me at 555-0100 or email [EMAIL]",
    client_name := "Alice", client_phone := "555-0100",
    client_email := some "a@b.com", exact_address := none,
    original_notes := some demoNotes, expires_at := 604800000 }

def demoProvider : ProviderRow :=
  { id := "P1", phone := "+15125550001", timezone := some "America/Chicago" }

def demoTarget : TeaserTarget :=
  { provider_id := "P1", phone := "+15125550001",
    timezone := some "America/Chicago" }

/-- A single (L1, P1) interaction in the given status. -/
def demoInteraction (status : String) (url : Option String) : Interaction :=
  { id := 1, lead_id := "L1", provider_id := "P1", status := status,
    last_sent_at := some 1000, ttl_expires_at := some 86401000,
    unlocked_at := none, payment_link_url := url,
    checkout_session_id := url.map (fun _ => "cs_1"),
    payment_intent_id := none, created_at := 1000, updated_at := 1000 }

/-- A database with lead L1, provider P1 and one (L1, P1) interaction. -/
def demoDB (status : String) (url : Option String) : DB :=
  { leads := [demoLead], lead_interactions := [demoInteraction status url],
    provider_optouts := [], lead_config := [], providers := [demoProvider],
    next_interaction_id := 2 }

def demoFresh : PaymentLink :=
  { url := "https://stripe.example/new", session_id := "cs_new" }

/-- A completed-checkout event for (L1, P1) with intent pi_123. -/
def demoSession : SessionEvt :=
  { metadata_lead_id := some "L1", metadata_provider_id := some "P1",
    payment_intent := some "pi_123" }

/-! ## List lemmas for the store -/

/-- `find?` over a conditional rewrite of every matching row: when the
rewrite preserves the predicate, the first match is the rewritten
original first match. -/
theorem find?_updateWhere {α : Type} (p : α → Bool) (f : α → α)
    (hf : ∀ a, p (f a) = p a) :
    ∀ l : List α, (updateWhere p f l).find? p = (l.find? p).map f := by
  intro l
  induction l with
  | nil => rfl
  | cons a t ih =>
    simp only [updateWhere, List.map_cons] at *
    cases hpa : p a with
    | true =>
      rw [List.find?_cons_of_pos _ (by simp [hpa, hf]),
        List.find?_cons_of_pos _ hpa]
      simp [hpa]
    | false =>
      rw [List.find?_cons_of_neg _ (by simp [hpa]),
        List.find?_cons_of_neg _ (by simp [hpa])]
      exact ih

/-- If the first `p`-match also satisfies the stronger predicate `q`
(`q` implies `p` pointwise), it is also the first `q`-match. -/
theorem find?_strengthen {α : Type} (p q : α → Bool)
    (hpq : ∀ x, q x = true → p x = true) :
    ∀ (l : List α) (a : α),
      l.find? p = some a → q a = true → l.find? q = some a := by
  intro l
  induction l with
  | nil => intro a h _; exact absurd h (by simp)
  | cons x t ih =>
    intro a h hqa
    cases hpx : p x with
    | true =>
      rw [List.find?_cons_of_pos _ hpx] at h
      injection h with h
      subst h
      rw [List.find?_cons_of_pos _ hqa]
    | false =>
      rw [List.find?_cons_of_neg _ (by simp [hpx])] at h
      have hqx : q x = false := by
        cases hq : q x with
        | true => exact absurd (hpq x hq) (by simp [hpx])
        | false => rfl
      rw [List.find?_cons_of_neg _ (by simp [hqx])]
      exact ih a h hqa

/-- Rewriting `status`/`updated_at` (and the other transition rewrites)
never changes the row key. -/
theorem keyMatch_update (L P : String) (f : Interaction → Interaction)
    (hf : ∀ r, (f r).lead_id = r.lead_id ∧ (f r).provider_id = r.provider_id) :
    ∀ r, keyMatch L P (f r) = keyMatch L P r := by
  intro r
  simp [keyMatch, (hf r).1, (hf r).2]

/-! ## Behavioural lemmas for the reply and webhook handlers -/

/-- The resend branch of `handleYesResponse`: when the first row with the
key is an unpaid link row, the link is resent verbatim, no session is
minted, and the status of the row is rewritten to `PAYMENT_LINK_SENT`. -/
theorem handleYes_resend_spec (db : DB) (leadId : String)
    (provider : ProviderRow) (fresh : PaymentLink) (now : Nat)
    (row : Interaction) (u : String)
    (hrow : getLeadInteraction db leadId provider.id = some row)
    (hst : row.status = "PAYMENT_LINK_SENT" ∨ row.status = "AWAITING_PAYMENT")
    (hurl : row.payment_link_url = some u) :
    handleYesResponse db leadId provider fresh now =
      { result := .resent_link,
        db := updateInteractionStatus db leadId provider.id
          "PAYMENT_LINK_SENT" now,
        sms := [{ phone := provider.phone, text := resendLinkMessage u }],
        sessions := [] } ∧
    getLeadInteraction
        (updateInteractionStatus db leadId provider.id "PAYMENT_LINK_SENT" now)
        leadId provider.id =
      some { row with
               status := "PAYMENT_LINK_SENT",
               updated_at := now } := by
  simp only [getLeadInteraction] at hrow
  have hk : keyMatch leadId provider.id row = true := List.find?_some hrow
  have hq : (keyMatch leadId provider.id row
      && (row.status == "PAYMENT_LINK_SENT" || row.status == "AWAITING_PAYMENT")
      && row.payment_link_url.isSome) = true := by
    cases hst with
    | inl h => simp [hk, h, hurl]
    | inr h => simp [hk, h, hurl]
  have hex : findExistingPaymentLink db leadId provider.id = some row := by
    apply find?_strengthen (keyMatch leadId provider.id) _ ?_ _ _ hrow hq
    intro x hx
    simp only [Bool.and_eq_true] at hx
    exact hx.1.1
  constructor
  · simp only [handleYesResponse, hex, hurl]
    rfl
  · simp only [updateInteractionStatus, getLeadInteraction]
    rw [find?_updateWhere (keyMatch leadId provider.id)
      (fun r => { r with status := "PAYMENT_LINK_SENT", updated_at := now })
      (fun r => rfl), hrow]
    rfl

/-- The mint branch of `handleYesResponse`: when no unpaid link row
exists for the key, a new checkout session is minted with the configured
price and the row is rewritten to `PAYMENT_LINK_SENT` with the fresh url
and session id — regardless of its current status. -/
theorem handleYes_mint_spec (db : DB) (leadId : String)
    (provider : ProviderRow) (fresh : PaymentLink) (now : Nat)
    (row : Interaction)
    (hrow : getLeadInteraction db leadId provider.id = some row)
    (hnolink : findExistingPaymentLink db leadId provider.id = none) :
    (handleYesResponse db leadId provider fresh now).result =
        .payment_link_sent fresh.url ∧
    (handleYesResponse db leadId provider fresh now).sessions =
      [{ currency := (getLeadConfig db).currency,
         unit_amount := (getLeadConfig db).price_cents,
         lead_id := leadId, provider_id := provider.id,
         expires_at := now / 1000 + 24 * 60 * 60 }] ∧
    getLeadInteraction (handleYesResponse db leadId provider fresh now).db
        leadId provider.id =
      some { row with
               status := "PAYMENT_LINK_SENT",
               payment_link_url := some fresh.url,
               checkout_session_id := some fresh.session_id,
               updated_at := now } := by
  simp only [getLeadInteraction] at hrow
  refine ⟨by simp only [handleYesResponse, hnolink],
    by simp only [handleYesResponse, hnolink], ?_⟩
  simp only [handleYesResponse, hnolink, getLeadInteraction]
  rw [find?_updateWhere (keyMatch leadId provider.id)
    (fun r => { r with
                  status := "PAYMENT_LINK_SENT",
                  payment_link_url := some fresh.url,
                  checkout_session_id := some fresh.session_id,
                  updated_at := now })
    (fun r => rfl), hrow]
  rfl

/-- Reply routing: a Y/YES reply from a known provider with an existing
interaction row is handed to `handleYesResponse`. -/
theorem handleProviderResponse_yes (db : DB)
    (phone message leadId : String) (fresh : PaymentLink) (now : Nat)
    (provider : ProviderRow) (r : Interaction)
    (hprov : db.providers.find? (fun p => p.phone == phone) = some provider)
    (hint : getLeadInteraction db leadId provider.id = some r)
    (hresp : jsToUpper (jsTrim message) = "Y" ∨ jsToUpper (jsTrim message) = "YES") :
    handleProviderResponse db phone message leadId fresh now =
      handleYesResponse db leadId provider fresh now := by
  simp only [handleProviderResponse, hprov, hint]
  cases hresp with
  | inl h => rw [h]; rfl
  | inr h => rw [h]; rfl

/-- `handleLeadPayment` on an event whose metadata names an existing
lead, provider and interaction row: the row is driven to `DONE` with
`unlocked_at` and `payment_intent_id` recorded, and exactly one reveal
SMS is sent to the provider's phone on record — unconditionally, with no
duplicate-delivery (payment-intent) check.  Leads, providers and opt-outs
are untouched. -/
theorem handleLeadPayment_spec (db : DB) (session : SessionEvt) (now : Nat)
    (L P : String) (row : Interaction) (lead : Lead) (provider : ProviderRow)
    (hL : session.metadata_lead_id = some L) (hLne : L.isEmpty = false)
    (hP : session.metadata_provider_id = some P) (hPne : P.isEmpty = false)
    (hrow : getLeadInteraction db L P = some row)
    (hlead : db.leads.find? (fun l => l.lead_id == L) = some lead)
    (hprov : db.providers.find? (fun p => p.id == P) = some provider) :
    (handleLeadPayment db session now).sms =
      [{ phone := provider.phone, text := revealMessage lead }] ∧
    getLeadInteraction (handleLeadPayment db session now).db L P =
      some { row with
               status := "DONE", unlocked_at := some now,
               payment_intent_id := session.payment_intent,
               updated_at := now } ∧
    (handleLeadPayment db session now).db.leads = db.leads ∧
    (handleLeadPayment db session now).db.providers = db.providers := by
  simp only [getLeadInteraction] at hrow
  have hll : lead.lead_id = L := by
    have := List.find?_some hlead
    simpa using this
  have hpp : provider.id = P := by
    have := List.find?_some hprov
    simpa using this
  simp only [handleLeadPayment, hL, hP, jsTruthy, jsOr, hLne, hPne,
    Bool.not_false, Bool.not_true, Bool.false_or, Bool.or_false,
    if_false, Bool.false_eq_true, ite_false]
  simp only [hlead, hprov, hll, hpp, updateInteractionStatus, getLeadInteraction]
  refine ⟨trivial, ?_, trivial, trivial⟩
  rw [find?_updateWhere (keyMatch L P)
    (fun r => { r with status := "DONE", updated_at := now })
    (fun r => rfl)]
  rw [find?_updateWhere (keyMatch L P)
    (fun r => { r with status := "REVEAL_DETAILS_SENT", updated_at := now })
    (fun r => rfl)]
  rw [find?_updateWhere (keyMatch L P)
    (fun r => { r with
                  status := "PAID", unlocked_at := some now,
                  payment_intent_id := session.payment_intent,
                  updated_at := now })
    (fun r => rfl), hrow]
  rfl

/-! ## Further fixtures -/

/-- An entirely empty database (no configuration row in particular). -/
def emptyDB : DB :=
  { leads := [], lead_interactions := [], provider_optouts := [],
    lead_config := [], providers := [], next_interaction_id := 1 }

/-- P1 has opted out but still has a (L1, P1) interaction in
`TEASER_SENT`. -/
def demoOptedDB : DB :=
  { demoDB "TEASER_SENT" none with provider_optouts := ["P1"] }

/-- A creation request reusing the already-present lead id L1. -/
def demoDupReq : CreateLeadReq :=
  { lead_id := some "L1", city := some "Austin",
    service_type := some "60 min massage", preferred_time_window := none,
    budget_range := none, client_name := some "Bob",
    client_phone := some "555-0199", client_email := none,
    exact_address := none, original_notes := none }

/-- A creation request with the required `city` missing. -/
def demoMissingReq : CreateLeadReq :=
  { lead_id := some "L9", city := none,
    service_type := some "60 min massage", preferred_time_window := none,
    budget_range := none, client_name := some "Bob",
    client_phone := some "555-0199", client_email := none,
    exact_address := none, original_notes := none }

/-! ## Claims C5, C6, C7 -/

/-- C5: the schema documents the quiet window as 21:30 to 08:00 in the
provider's timezone, but `isQuietHours` compares the integer server-local
hour with `21.5` and ignores its `timezone` argument: at a server-local
21:45 (`getHours() = 21`) the check is false and the teaser dispatch
proceeds, upserting the (L1, P1) row to `TEASER_SENT` — the claimed
`queued(quiet_hours)` with no mutation does not happen until 22:00, and
never by the provider's clock. -/
theorem C5_quiet_hours_divergence :
    isQuietHours "America/New_York" 21 = false
    ∧ (sendLeadTeaser (demoDB "NEW_LEAD" none) demoLead demoTarget 21 2000).result
        = .sent 1
    ∧ (getLeadInteraction
          (sendLeadTeaser (demoDB "NEW_LEAD" none) demoLead demoTarget 21 2000).db
          "L1" "P1").map (fun r => r.status) = some "TEASER_SENT"
    ∧ isQuietHours "America/New_York" 22 = true := by
  refine ⟨rfl, rfl, ?_, rfl⟩
  rfl

/-- C6 counterexample: on scenario A's notes the stored snippet still
contains the raw phone digits `555-0100` and contains no `[PHONE]` token
— the 7-digit number matches neither phone pattern (one wants ten digits,
the other a parenthesised area code preceded by a word character), so the
claim that the snippet has `[PHONE]` and no raw digits is false. -/
theorem C6_phone_survives_counterexample :
    strContains (stripPIIFromNotes (some demoNotes)) "555-0100" = true
    ∧ strContains (stripPIIFromNotes (some demoNotes)) "[PHONE]" = false := by
  constructor <;> decide

/-- C6 (amended): for scenario A's notes the snippet is exactly
`call me at 555-0100 or email [EMAIL]`: the email is replaced and its
literal text is gone, but the 7-digit phone number survives verbatim and
no `[PHONE]` token appears — the redactor is a best-effort heuristic and
does not guarantee absence of phone digits or the client name. -/
theorem C6_redaction_scenario :
    stripPIIFromNotes (some demoNotes) = "call me at 555-0100 or email [EMAIL]"
    ∧ strContains (stripPIIFromNotes (some demoNotes)) "[EMAIL]" = true
    ∧ strContains (stripPIIFromNotes (some demoNotes)) "a@b.com" = false := by
  refine ⟨by decide, by decide, by decide⟩

/-- C7 counterexample: with no configuration row, `getLeadConfig` falls
back to a literal that has no quiet-hours fields at all, so the claimed
default window 21:30 to 08:00 is not part of the returned policy. -/
theorem C7_fallback_no_quiet_hours_counterexample :
    (getLeadConfig emptyDB).quiet_start_hour = none
    ∧ (getLeadConfig emptyDB).quiet_start_hour ≠ some 21 := by
  constructor
  · rfl
  · intro h
    exact Option.noConfusion h

/-- C7 (amended): with no configuration row `getLeadConfig` returns
exactly price 2000 minor units, currency usd and TTL 24 hours; the
fallback carries no quiet-hours window (the quiet-hours check elsewhere
is hard-coded and reads no configuration). -/
theorem C7_config_fallback (db : DB) (h : db.lead_config = []) :
    getLeadConfig db =
      { price_cents := 2000, currency := "usd", ttl_hours := 24,
        quiet_start_hour := none, quiet_start_minute := none,
        quiet_end_hour := none, quiet_end_minute := none } := by
  simp [getLeadConfig, latestConfigRow, h]

/-- C7 witness: the fallback policy on the empty database. -/
theorem C7_config_fallback_witness :
    getLeadConfig emptyDB =
      { price_cents := 2000, currency := "usd", ttl_hours := 24,
        quiet_start_hour := none, quiet_start_minute := none,
        quiet_end_hour := none, quiet_end_minute := none } :=
  C7_config_fallback emptyDB rfl

/-! ## Claims C8, C9, C10 -/

/-- C8: lead creation fails with a validation error (and no state
change) when any required field is missing, and with a conflict error
(and no state change, so the existing lead is untouched) when the lead id
is already present — duplicates are rejected, never merged. -/
theorem C8_create_lead_errors (db : DB) (req : CreateLeadReq) (now : Nat) :
    ((jsTruthy req.lead_id = false ∨ jsTruthy req.city = false
        ∨ jsTruthy req.service_type = false ∨ jsTruthy req.client_name = false
        ∨ jsTruthy req.client_phone = false) →
      createLeadChecked db req now = (.error .validationError, db))
    ∧ (jsTruthy req.lead_id = true → jsTruthy req.city = true →
       jsTruthy req.service_type = true → jsTruthy req.client_name = true →
       jsTruthy req.client_phone = true →
       db.leads.any (fun l => l.lead_id == jsOr req.lead_id "") = true →
       createLeadChecked db req now = (.error .conflictError, db)) := by
  constructor
  · intro h
    have hcond : (!jsTruthy req.lead_id || !jsTruthy req.city
        || !jsTruthy req.service_type || !jsTruthy req.client_name
        || !jsTruthy req.client_phone) = true := by
      rcases h with h | h | h | h | h <;> simp [h]
    simp [createLeadChecked, hcond]
  · intro h1 h2 h3 h4 h5 hdup
    simp [createLeadChecked, h1, h2, h3, h4, h5, createLead, hdup]

/-- C8 witness: a duplicate of L1 is rejected as a conflict with the
state unchanged, and a request without a city is rejected as a
validation error with the state unchanged. -/
theorem C8_create_lead_errors_witness :
    createLeadChecked (demoDB "NEW_LEAD" none) demoDupReq 0 =
      (.error .conflictError, demoDB "NEW_LEAD" none)
    ∧ createLeadChecked (demoDB "NEW_LEAD" none) demoMissingReq 0 =
      (.error .validationError, demoDB "NEW_LEAD" none) :=
  ⟨(C8_create_lead_errors (demoDB "NEW_LEAD" none) demoDupReq 0).2
      rfl rfl rfl rfl rfl rfl,
    (C8_create_lead_errors (demoDB "NEW_LEAD" none) demoMissingReq 0).1
      (Or.inr (Or.inl rfl))⟩

/-- C9: a reply from a phone number matching no provider record — STOP
included — yields the `Unknown provider` error result and leaves the
whole state unchanged, with no SMS and no checkout session. -/
theorem C9_unknown_provider_noop (db : DB)
    (phone message leadId : String) (fresh : PaymentLink) (now : Nat)
    (h : db.providers.find? (fun p => p.phone == phone) = none) :
    handleProviderResponse db phone message leadId fresh now =
      { result := .err "Unknown provider", db := db, sms := [], sessions := [] } := by
  simp [handleProviderResponse, h]

/-- C9 witness: a STOP from an unknown number on the demo state. -/
theorem C9_unknown_provider_noop_witness :
    handleProviderResponse (demoDB "TEASER_SENT" none) "+19990000000" "STOP"
        "L1" demoFresh 2000 =
      { result := .err "Unknown provider", db := demoDB "TEASER_SENT" none,
        sms := [], sessions := [] } :=
  C9_unknown_provider_noop (demoDB "TEASER_SENT" none) "+19990000000" "STOP"
    "L1" demoFresh 2000 rfl

/-- C10: re-dispatching a teaser for a pair that already has a row takes
the `ON CONFLICT` arm, which writes only `status` and `updated_at`: the
returned row and the stored row keep the original `ttl_expires_at` (and
every other field), so the TTL deadline set at first creation is never
extended. -/
theorem C10_upsert_keeps_ttl (db : DB) (L P s : String) (now : Nat)
    (row : Interaction)
    (hrow : getLeadInteraction db L P = some row) :
    (upsertLeadInteraction db L P s now).1 =
      { row with status := s, updated_at := now }
    ∧ ((upsertLeadInteraction db L P s now).1).ttl_expires_at = row.ttl_expires_at
    ∧ getLeadInteraction (upsertLeadInteraction db L P s now).2 L P =
      some { row with status := s, updated_at := now } := by
  have hrow' : List.find? (keyMatch L P) db.lead_interactions = some row := hrow
  refine ⟨?_, ?_, ?_⟩
  · simp only [upsertLeadInteraction, hrow]
  · simp only [upsertLeadInteraction, hrow]
  · simp only [upsertLeadInteraction, getLeadInteraction, hrow']
    rw [find?_updateWhere (keyMatch L P)
      (fun r => { r with status := s, updated_at := now })
      (fun r => rfl), hrow']
    rfl

/-- C10 witness: re-dispatch on the demo row keeps its TTL timestamp. -/
theorem C10_upsert_keeps_ttl_witness :
    (upsertLeadInteraction (demoDB "TEASER_SENT" none) "L1" "P1"
        "TEASER_SENT" 5000).1 =
      { demoInteraction "TEASER_SENT" none with
          status := "TEASER_SENT", updated_at := 5000 }
    ∧ ((upsertLeadInteraction (demoDB "TEASER_SENT" none) "L1" "P1"
        "TEASER_SENT" 5000).1).ttl_expires_at =
      (demoInteraction "TEASER_SENT" none).ttl_expires_at
    ∧ getLeadInteraction (upsertLeadInteraction (demoDB "TEASER_SENT" none)
        "L1" "P1" "TEASER_SENT" 5000).2 "L1" "P1" =
      some { demoInteraction "TEASER_SENT" none with
               status := "TEASER_SENT", updated_at := 5000 } :=
  C10_upsert_keeps_ttl (demoDB "TEASER_SENT" none) "L1" "P1" "TEASER_SENT"
    5000 (demoInteraction "TEASER_SENT" none) rfl

/-! ## Claim C1 -/

/-- C1 counterexample: delivering the same completion webhook (same
lead, provider and payment intent) twice to an interaction that was in
`PAYMENT_LINK_SENT` makes the second delivery send the reveal SMS again
and rewrite the row (`unlocked_at` becomes the second delivery time), so
the second delivery is neither free of state change nor free of a second
reveal SMS. -/
theorem C1_duplicate_webhook_counterexample :
    (handleLeadPayment
        (handleLeadPayment (demoDB "PAYMENT_LINK_SENT" (some "https://pay.example/x"))
            demoSession 2000).db
        demoSession 3000).sms.length = 1
    ∧ (getLeadInteraction
          (handleLeadPayment
              (handleLeadPayment
                  (demoDB "PAYMENT_LINK_SENT" (some "https://pay.example/x"))
                  demoSession 2000).db
              demoSession 3000).db "L1" "P1").map (fun r => r.unlocked_at)
        = some (some 3000) := by
  constructor <;> rfl

/-- C1 (amended): a first delivery of the completion webhook for an
interaction in `PAYMENT_LINK_SENT`/`AWAITING_PAYMENT` moves it to `DONE`
and sends the reveal SMS exactly once; but the handler keeps no
payment-intent dedup, so a second delivery of the identical webhook
re-runs the whole flow — it sends the reveal SMS a second time and
rewrites the row through `PAID`/`REVEAL_DETAILS_SENT` back to `DONE`;
only the final status value is unchanged, the delivery is not a no-op. -/
theorem C1_payment_webhook_replay (db : DB) (session : SessionEvt)
    (now now2 : Nat) (L P : String) (row : Interaction) (lead : Lead)
    (provider : ProviderRow)
    (hL : session.metadata_lead_id = some L) (hLne : L.isEmpty = false)
    (hP : session.metadata_provider_id = some P) (hPne : P.isEmpty = false)
    (hrow : getLeadInteraction db L P = some row)
    (_hst : row.status = "PAYMENT_LINK_SENT" ∨ row.status = "AWAITING_PAYMENT")
    (hlead : db.leads.find? (fun l => l.lead_id == L) = some lead)
    (hprov : db.providers.find? (fun p => p.id == P) = some provider) :
    (handleLeadPayment db session now).sms =
      [{ phone := provider.phone, text := revealMessage lead }]
    ∧ getLeadInteraction (handleLeadPayment db session now).db L P =
      some { row with
               status := "DONE", unlocked_at := some now,
               payment_intent_id := session.payment_intent,
               updated_at := now }
    ∧ (handleLeadPayment (handleLeadPayment db session now).db session now2).sms =
      [{ phone := provider.phone, text := revealMessage lead }] := by
  obtain ⟨h1, h2, h3, h4⟩ :=
    handleLeadPayment_spec db session now L P row lead provider
      hL hLne hP hPne hrow hlead hprov
  refine ⟨h1, h2, ?_⟩
  have hlead2 : (handleLeadPayment db session now).db.leads.find?
      (fun l => l.lead_id == L) = some lead := by
    rw [h3]; exact hlead
  have hprov2 : (handleLeadPayment db session now).db.providers.find?
      (fun p => p.id == P) = some provider := by
    rw [h4]; exact hprov
  exact (handleLeadPayment_spec (handleLeadPayment db session now).db session
    now2 L P _ lead provider hL hLne hP hPne h2 hlead2 hprov2).1

/-- C1 witness: the replayed demo webhook sends the reveal SMS again. -/
theorem C1_payment_webhook_replay_witness :
    (handleLeadPayment
        (handleLeadPayment (demoDB "PAYMENT_LINK_SENT" (some "https://pay.example/x"))
            demoSession 2000).db
        demoSession 3000).sms =
      [{ phone := "+15125550001", text := revealMessage demoLead }] :=
  (C1_payment_webhook_replay
      (demoDB "PAYMENT_LINK_SENT" (some "https://pay.example/x"))
      demoSession 2000 3000 "L1" "P1"
      (demoInteraction "PAYMENT_LINK_SENT" (some "https://pay.example/x"))
      demoLead demoProvider rfl rfl rfl rfl rfl (Or.inl rfl) rfl rfl).2.2

/-! ## Claim C2 -/

/-- C2 counterexample: a Y reply to an interaction in
`AWAITING_PAYMENT` with an existing link does resend the link, but it
does not leave the status unchanged — the resend branch rewrites the
status to `PAYMENT_LINK_SENT`. -/
theorem C2_status_rewrite_counterexample :
    (getLeadInteraction (demoDB "AWAITING_PAYMENT" (some "https://pay.example/x"))
        "L1" "P1").map (fun r => r.status) = some "AWAITING_PAYMENT"
    ∧ (getLeadInteraction
          (handleProviderResponse
              (demoDB "AWAITING_PAYMENT" (some "https://pay.example/x"))
              "+15125550001" "Y" "L1" demoFresh 2000).db
          "L1" "P1").map (fun r => r.status) = some "PAYMENT_LINK_SENT" := by
  constructor <;> rfl

/-- C2 (amended): for a pair in `PAYMENT_LINK_SENT`/`AWAITING_PAYMENT`
with a non-null link URL, a Y/YES reply resends exactly the existing URL
and mints no new checkout session, but writes the status to
`PAYMENT_LINK_SENT` (unchanged only when it already was
`PAYMENT_LINK_SENT`; an `AWAITING_PAYMENT` row is moved back); a second
Y reply resends the identical URL again, still minting nothing. -/
theorem C2_resend_link_idempotent (db : DB)
    (phone message message2 leadId : String) (fresh fresh2 : PaymentLink)
    (now now2 : Nat) (provider : ProviderRow) (row : Interaction) (u : String)
    (hprov : db.providers.find? (fun p => p.phone == phone) = some provider)
    (hrow : getLeadInteraction db leadId provider.id = some row)
    (hst : row.status = "PAYMENT_LINK_SENT" ∨ row.status = "AWAITING_PAYMENT")
    (hurl : row.payment_link_url = some u)
    (hresp : jsToUpper (jsTrim message) = "Y" ∨ jsToUpper (jsTrim message) = "YES")
    (hresp2 : jsToUpper (jsTrim message2) = "Y" ∨ jsToUpper (jsTrim message2) = "YES") :
    handleProviderResponse db phone message leadId fresh now =
      { result := .resent_link,
        db := updateInteractionStatus db leadId provider.id
          "PAYMENT_LINK_SENT" now,
        sms := [{ phone := provider.phone, text := resendLinkMessage u }],
        sessions := [] }
    ∧ (handleProviderResponse
          (handleProviderResponse db phone message leadId fresh now).db
          phone message2 leadId fresh2 now2).sms =
        [{ phone := provider.phone, text := resendLinkMessage u }]
    ∧ (handleProviderResponse
          (handleProviderResponse db phone message leadId fresh now).db
          phone message2 leadId fresh2 now2).sessions = [] := by
  have hroute := handleProviderResponse_yes db phone message leadId fresh now
    provider row hprov hrow hresp
  obtain ⟨hY, hfind⟩ :=
    handleYes_resend_spec db leadId provider fresh now row u hrow hst hurl
  have hout := hroute.trans hY
  have hprov1 : (updateInteractionStatus db leadId provider.id
      "PAYMENT_LINK_SENT" now).providers.find? (fun p => p.phone == phone)
      = some provider := hprov
  have hroute2 := handleProviderResponse_yes
    (updateInteractionStatus db leadId provider.id "PAYMENT_LINK_SENT" now)
    phone message2 leadId fresh2 now2 provider
    { row with status := "PAYMENT_LINK_SENT", updated_at := now }
    hprov1 hfind hresp2
  obtain ⟨hY2, _⟩ := handleYes_resend_spec
    (updateInteractionStatus db leadId provider.id "PAYMENT_LINK_SENT" now)
    leadId provider fresh2 now2
    { row with status := "PAYMENT_LINK_SENT", updated_at := now } u
    hfind (Or.inl rfl) hurl
  have hout2 := hroute2.trans hY2
  refine ⟨hout, ?_, ?_⟩
  · rw [hout]
    show (handleProviderResponse
      (updateInteractionStatus db leadId provider.id "PAYMENT_LINK_SENT" now)
      phone message2 leadId fresh2 now2).sms = _
    rw [hout2]
  · rw [hout]
    show (handleProviderResponse
      (updateInteractionStatus db leadId provider.id "PAYMENT_LINK_SENT" now)
      phone message2 leadId fresh2 now2).sessions = _
    rw [hout2]

/-- C2 witness: two Y replies on the demo `PAYMENT_LINK_SENT` row both
resend the stored URL and mint nothing. -/
theorem C2_resend_link_idempotent_witness :
    handleProviderResponse (demoDB "PAYMENT_LINK_SENT" (some "https://pay.example/x"))
        "+15125550001" "Y" "L1" demoFresh 2000 =
      { result := .resent_link,
        db := updateInteractionStatus
          (demoDB "PAYMENT_LINK_SENT" (some "https://pay.example/x"))
          "L1" "P1" "PAYMENT_LINK_SENT" 2000,
        sms := [{ phone := "+15125550001",
                  text := resendLinkMessage "https://pay.example/x" }],
        sessions := [] }
    ∧ (handleProviderResponse
          (handleProviderResponse
              (demoDB "PAYMENT_LINK_SENT" (some "https://pay.example/x"))
              "+15125550001" "Y" "L1" demoFresh 2000).db
          "+15125550001" "YES" "L1" demoFresh 3000).sms =
        [{ phone := "+15125550001",
           text := resendLinkMessage "https://pay.example/x" }]
    ∧ (handleProviderResponse
          (handleProviderResponse
              (demoDB "PAYMENT_LINK_SENT" (some "https://pay.example/x"))
              "+15125550001" "Y" "L1" demoFresh 2000).db
          "+15125550001" "YES" "L1" demoFresh 3000).sessions = [] :=
  C2_resend_link_idempotent
    (demoDB "PAYMENT_LINK_SENT" (some "https://pay.example/x"))
    "+15125550001" "Y" "YES" "L1" demoFresh demoFresh 2000 3000
    demoProvider
    (demoInteraction "PAYMENT_LINK_SENT" (some "https://pay.example/x"))
    "https://pay.example/x" rfl rfl (Or.inl rfl) rfl (Or.inl rfl) (Or.inr rfl)

/-! ## Claim C3 -/

/-- C3 counterexample: a Y reply on an interaction already in `PAID`
mints a brand-new checkout session and moves the status back to
`PAYMENT_LINK_SENT` — exactly the backward move the claim rules out. -/
theorem C3_paid_backward_counterexample :
    (getLeadInteraction (demoDB "PAID" (some "https://pay.example/x"))
        "L1" "P1").map (fun r => r.status) = some "PAID"
    ∧ (getLeadInteraction
          (handleProviderResponse (demoDB "PAID" (some "https://pay.example/x"))
              "+15125550001" "Y" "L1" demoFresh 2000).db
          "L1" "P1").map (fun r => r.status) = some "PAYMENT_LINK_SENT"
    ∧ (handleProviderResponse (demoDB "PAID" (some "https://pay.example/x"))
          "+15125550001" "Y" "L1" demoFresh 2000).sessions.length = 1 := by
  refine ⟨rfl, rfl, rfl⟩

/-- C3 (amended): status transitions carry no guard on the current
status — every handler overwrites it unconditionally.  In particular a
Y/YES reply for a `PAID` interaction with no live link row mints a new
checkout session and rewrites the row back to `PAYMENT_LINK_SENT` (the
webhook handler likewise rewrites `DONE` rows to `PAID`, and an N reply
or re-dispatched teaser overwrites terminal statuses). -/
theorem C3_unguarded_transitions (db : DB) (phone message leadId : String)
    (fresh : PaymentLink) (now : Nat) (provider : ProviderRow)
    (row : Interaction)
    (hprov : db.providers.find? (fun p => p.phone == phone) = some provider)
    (hrow : getLeadInteraction db leadId provider.id = some row)
    (_hpaid : row.status = "PAID")
    (hnolink : findExistingPaymentLink db leadId provider.id = none)
    (hresp : jsToUpper (jsTrim message) = "Y" ∨ jsToUpper (jsTrim message) = "YES") :
    (handleProviderResponse db phone message leadId fresh now).result =
        .payment_link_sent fresh.url
    ∧ (handleProviderResponse db phone message leadId fresh now).sessions =
      [{ currency := (getLeadConfig db).currency,
         unit_amount := (getLeadConfig db).price_cents,
         lead_id := leadId, provider_id := provider.id,
         expires_at := now / 1000 + 24 * 60 * 60 }]
    ∧ getLeadInteraction
        (handleProviderResponse db phone message leadId fresh now).db
        leadId provider.id =
      some { row with
               status := "PAYMENT_LINK_SENT",
               payment_link_url := some fresh.url,
               checkout_session_id := some fresh.session_id,
               updated_at := now } := by
  have hroute := handleProviderResponse_yes db phone message leadId fresh now
    provider row hprov hrow hresp
  rw [hroute]
  exact handleYes_mint_spec db leadId provider fresh now row hrow hnolink

/-- C3 witness: the demo `PAID` row moved back to `PAYMENT_LINK_SENT`
with a freshly minted session. -/
theorem C3_unguarded_transitions_witness :
    (handleProviderResponse (demoDB "PAID" (some "https://pay.example/x"))
        "+15125550001" "Y" "L1" demoFresh 2000).result =
      .payment_link_sent "https://stripe.example/new"
    ∧ (handleProviderResponse (demoDB "PAID" (some "https://pay.example/x"))
          "+15125550001" "Y" "L1" demoFresh 2000).sessions =
      [{ currency := "usd", unit_amount := 2000, lead_id := "L1",
         provider_id := "P1", expires_at := 2000 / 1000 + 24 * 60 * 60 }]
    ∧ getLeadInteraction
        (handleProviderResponse (demoDB "PAID" (some "https://pay.example/x"))
            "+15125550001" "Y" "L1" demoFresh 2000).db "L1" "P1" =
      some { demoInteraction "PAID" (some "https://pay.example/x") with
               status := "PAYMENT_LINK_SENT",
               payment_link_url := some "https://stripe.example/new",
               checkout_session_id := some "cs_new",
               updated_at := 2000 } :=
  C3_unguarded_transitions (demoDB "PAID" (some "https://pay.example/x"))
    "+15125550001" "Y" "L1" demoFresh 2000 demoProvider
    (demoInteraction "PAID" (some "https://pay.example/x"))
    rfl rfl rfl rfl (Or.inl rfl)

/-! ## Claim C4 -/

/-- C4 counterexample: with P1 opted out, teaser dispatch is indeed
blocked, but reply handling never consults the opt-out table: a Y reply
on P1's existing `TEASER_SENT` interaction still mints a checkout
session and advances the row to `PAYMENT_LINK_SENT`, so it is false
that no later operation advances an interaction for an opted-out
provider. -/
theorem C4_reply_not_blocked_counterexample :
    demoOptedDB.provider_optouts = ["P1"]
    ∧ (getLeadInteraction
          (handleProviderResponse demoOptedDB "+15125550001" "Y" "L1"
              demoFresh 2000).db "L1" "P1").map (fun r => r.status)
        = some "PAYMENT_LINK_SENT"
    ∧ (handleProviderResponse demoOptedDB "+15125550001" "Y" "L1"
          demoFresh 2000).sessions.length = 1 := by
  refine ⟨rfl, rfl, rfl⟩

/-- C4 (amended): once an opt-out record exists for a provider, every
teaser dispatch for any lead to that provider returns
`skipped(opted_out)` and performs no state change at all; the opt-out is
only consulted by the teaser path, however — reply handling and the
payment webhook are not blocked by it (see the counterexample). -/
theorem C4_optout_blocks_teaser (db : DB) (lead : Lead)
    (provider : TeaserTarget) (serverHour now : Nat)
    (h : db.provider_optouts.contains provider.provider_id = true) :
    sendLeadTeaser db lead provider serverHour now =
      { result := .skipped "opted_out", db := db, sms := [] } := by
  unfold sendLeadTeaser
  rw [h]
  rfl

/-- C4 witness: a teaser for a fresh lead to the opted-out P1 is
skipped with the state untouched. -/
theorem C4_optout_blocks_teaser_witness :
    sendLeadTeaser demoOptedDB demoLead demoTarget 12 2000 =
      { result := .skipped "opted_out", db := demoOptedDB, sms := [] } :=
  C4_optout_blocks_teaser demoOptedDB demoLead demoTarget 12 2000 rfl

end LeadGen

